import Mathlib

/-!
Verification of the CppUTest.TestAdapter example repository.

The repository's only source file, `src/NativeTestExe/ExampleTests.cpp`,
declares two CppUTest test groups and four test cases.  The CppUTest
harness itself (registry, assertion engine, driver) is not part of the
repository's sources, so those components are modelled from the
specification (spec.md sections 3, 4, 6 and 7); the four test bodies and
the two group declarations are embedded from the source file.
-/

namespace CppUTestAdapter

/-- Modelled from the spec: the kind of an `AssertionFailure`
(string-equality | inequality | boolean-true), spec section 3. -/
inductive FailureKind where
  | stringEquality
  | inequality
  | booleanTrue
deriving DecidableEq, Repr

/-- Modelled from the spec: an `AssertionFailure` record, spec section 3:
kind, optional stringified expected value, optional stringified actual
value, source location (line number) and human-readable message. -/
structure AssertionFailure where
  kind : FailureKind
  expected : Option String
  actual : Option String
  loc : Nat
  message : String
deriving DecidableEq, Repr

/-- A C string value as it reaches an assertion: the address of the
buffer holding it and its byte content up to (excluding) the
terminator.  Two `CStr`s stored in different buffers have different
`addr` but may have identical `bytes`. -/
structure CStr where
  addr : Nat
  bytes : List Char
deriving DecidableEq, Repr

/-- A freshly constructed character array such as
`char b[] = { 's','t','e','v','e', 0 }` in `test_PassingTest2`
(src/NativeTestExe/ExampleTests.cpp line 32): the C string it holds is
the content up to the first terminator byte. -/
def mkBuffer (addr : Nat) (arr : List Char) : CStr :=
  ⟨addr, arr.takeWhile (fun c => c ≠ Char.ofNat 0)⟩

/-- Modelled from the spec: one assertion-engine call inside a test
body, spec section 4.2 — `assertStringEqual(actual, expected)`
(STRCMP_EQUAL), `assertNotEqual(a, b)` on integers or on strings
(CHECK of an inequality), and `assertTrue(condition)` (CHECK).  Each
carries its source line. -/
inductive Check where
  | strEq (actual expected : CStr) (loc : Nat)
  | notEqNat (a b : Nat) (loc : Nat)
  | notEqStr (a b : CStr) (loc : Nat)
  | boolTrue (cond : Bool) (loc : Nat)
deriving DecidableEq, Repr

/-- The failure recorded by a failing `assertStringEqual`, following the
spec's report format (section 6): expected and actual are the two
strings' contents. -/
def strEqFail (actual expected : CStr) (loc : Nat) : AssertionFailure :=
  ⟨FailureKind.stringEquality, some (String.mk expected.bytes),
    some (String.mk actual.bytes), loc,
    "expected \"" ++ String.mk expected.bytes ++ "\" but was \"" ++
      String.mk actual.bytes ++ "\""⟩

/-- The failure recorded by a failing integer `assertNotEqual`. -/
def notEqNatFail (a b : Nat) (loc : Nat) : AssertionFailure :=
  ⟨FailureKind.inequality, none, some (toString a ++ " == " ++ toString b),
    loc, "expected values to differ"⟩

/-- The failure recorded by a failing string `assertNotEqual`. -/
def notEqStrFail (a b : CStr) (loc : Nat) : AssertionFailure :=
  ⟨FailureKind.inequality, none,
    some (String.mk a.bytes ++ " == " ++ String.mk b.bytes), loc,
    "expected values to differ"⟩

/-- The failure recorded by a failing `assertTrue`. -/
def boolTrueFail (loc : Nat) : AssertionFailure :=
  ⟨FailureKind.booleanTrue, some "true", some "false", loc,
    "expected condition to be true"⟩

/-- Modelled from the spec: the assertion engine, spec section 4.2.
`assertStringEqual` compares byte content (never buffer identity);
`assertNotEqual` fails when the two values are equal; `assertTrue`
fails when the condition is false.  `none` means the check succeeds
silently; `some f` means it records the failure `f`. -/
def evalCheck : Check → Option AssertionFailure
  | Check.strEq a e loc =>
      if a.bytes = e.bytes then none else some (strEqFail a e loc)
  | Check.notEqNat a b loc =>
      if a = b then some (notEqNatFail a b loc) else none
  | Check.notEqStr a b loc =>
      if a.bytes = b.bytes then some (notEqStrFail a b loc) else none
  | Check.boolTrue c loc =>
      if c then none else some (boolTrueFail loc)

/-- Modelled from the spec: running a test body, spec section 4.2 — on
the first failing assertion the failure is signalled as a fatal abort of
the body (`Except.error`), so no later statement of the body executes;
if every check passes the body completes normally. -/
def runChecksE : List Check → Except AssertionFailure Unit
  | [] => Except.ok ()
  | c :: rest =>
      match evalCheck c with
      | some f => Except.error f
      | none => runChecksE rest

/-- Modelled from the spec: a `TestResult`, spec section 3: pass, or the
ordered sequence of recorded `AssertionFailure`s. -/
inductive TestResult where
  | passed
  | failed (failures : List AssertionFailure)
deriving DecidableEq, Repr

/-- Number of assertion failures recorded in a result. -/
def TestResult.numFailures : TestResult → Nat
  | TestResult.passed => 0
  | TestResult.failed fs => fs.length

/-- Modelled from the spec: the driver-side scoped failure-capturing
context, spec sections 4.2 and 6 — the fatal abort signal is caught at
the test-case boundary and turned into a `TestResult`; it never
propagates further. -/
def runBody (body : List Check) : TestResult :=
  match runChecksE body with
  | Except.ok _ => TestResult.passed
  | Except.error f => TestResult.failed [f]

/- ### The four test bodies of src/NativeTestExe/ExampleTests.cpp -/

/-- The string literal `"steve"` (lines 25 and 31). -/
def steveLit : CStr := ⟨100, "steve".data⟩

/-- The string literal `"harvey"` (line 26). -/
def harveyLit : CStr := ⟨200, "harvey".data⟩

/-- The string literal `"yo"` (line 40). -/
def yoLit : CStr := ⟨300, "yo".data⟩

/-- The string literal `"mamma"` (line 40). -/
def mammaLit : CStr := ⟨400, "mamma".data⟩

/-- The stack buffer `char b[] = { 's','t','e','v','e', 0 }` of
`test_PassingTest2` (line 32): a buffer distinct from `steveLit`'s,
holding the same byte content. -/
def steveBuf : CStr :=
  mkBuffer 500 ['s', 't', 'e', 'v', 'e', Char.ofNat 0]

/-- Body of TEST(MyFunnyValentine_testGroup, test_FailingTest1),
lines 23-27: `STRCMP_EQUAL(a, "harvey")` with `a = "steve"` — per the
spec's scenario, `assertStringEqual("steve", "harvey")` with actual
`"steve"` and expected `"harvey"`. -/
def test_FailingTest1_body : List Check :=
  [Check.strEq steveLit harveyLit 26]

/-- Body of TEST(MyFunnyValentine_testGroup, test_PassingTest2),
lines 29-34: `STRCMP_EQUAL(a, b)` comparing the literal `"steve"`
against the freshly constructed buffer. -/
def MFV_test_PassingTest2_body : List Check :=
  [Check.strEq steveLit steveBuf 33]

/-- Body of TEST(AquaManAndBarnacleBoy_testGroup, test_PassingTest1),
lines 37-41: `CHECK(0 != 5)` and `CHECK("yo" != "mamma")` — per the
spec's scenario, `assertNotEqual(0,5)` and
`assertNotEqual("yo","mamma")`. -/
def AMBB_test_PassingTest1_body : List Check :=
  [Check.notEqNat 0 5 39, Check.notEqStr yoLit mammaLit 40]

/-- Body of TEST(AquaManAndBarnacleBoy_testGroup, test_PassingTest2),
lines 44-48: `CHECK(0 != 6)` and `CHECK(true)` — per the spec's
scenario, `assertNotEqual(0,6)` and `assertTrue(true)`. -/
def AMBB_test_PassingTest2_body : List Check :=
  [Check.notEqNat 0 6 46, Check.boolTrue true 47]

/- ### Registry, spec section 4.1 -/

/-- Modelled from the spec: a `TestCase` — identifier and body, spec
section 3. -/
structure TestCase where
  name : String
  body : List Check
deriving DecidableEq, Repr

/-- Modelled from the spec: a `TestGroup` — identifier and ordered
sequence of test cases, spec section 3. -/
structure TestGroup where
  name : String
  cases : List TestCase
deriving DecidableEq, Repr

/-- Modelled from the spec: the `Registry` — named test groups in
registration order, spec sections 3 and 4.1. -/
structure Registry where
  groups : List TestGroup
deriving DecidableEq, Repr

/-- The empty registry at process start. -/
def Registry.empty : Registry := ⟨[]⟩

/-- Modelled from the spec: registration-time errors, spec section 7. -/
inductive RegError where
  | DuplicateGroupError
  | DuplicateTestError
  | UnknownGroupError
deriving DecidableEq, Repr

/-- Names of the groups registered so far. -/
def Registry.groupNames (r : Registry) : List String :=
  r.groups.map TestGroup.name

/-- Names of the test cases registered so far in group `g`. -/
def Registry.testNames (r : Registry) (g : String) : List String :=
  (r.groups.filter (fun gr => gr.name == g)).flatMap
    (fun gr => gr.cases.map TestCase.name)

/-- Modelled from the spec: `defineGroup(name)`, spec section 4.1 —
fails with `DuplicateGroupError` if the name is already registered,
otherwise appends a fresh empty group. -/
def defineGroup (n : String) (r : Registry) : Except RegError Registry :=
  if n ∈ r.groupNames then Except.error RegError.DuplicateGroupError
  else Except.ok ⟨r.groups ++ [⟨n, []⟩]⟩

/-- Modelled from the spec: `defineTest(group, name, body)`, spec
section 4.1 — fails with `UnknownGroupError` if the group is unknown,
with `DuplicateTestError` if the name is already registered within that
group, otherwise appends the test case to the group. -/
def defineTest (g n : String) (body : List Check) (r : Registry) :
    Except RegError Registry :=
  if g ∈ r.groupNames then
    if n ∈ r.testNames g then Except.error RegError.DuplicateTestError
    else Except.ok ⟨r.groups.map (fun gr =>
      if gr.name = g then ⟨gr.name, gr.cases ++ [⟨n, body⟩]⟩ else gr)⟩
  else Except.error RegError.UnknownGroupError

/-- Modelled from the spec: `allTests()`, spec section 4.1 — the finite
sequence of (groupName, testName, body) triples in registration
order. -/
def Registry.allTests (r : Registry) : List (String × String × List Check) :=
  r.groups.flatMap (fun gr => gr.cases.map (fun t => (gr.name, t.name, t.body)))

/-- A cursor over the sequence produced by `allTests()`: the entries not
yet yielded. -/
structure Iter where
  remaining : List (String × String × List Check)
deriving DecidableEq, Repr

/-- A fresh iterator over `allTests()`. -/
def Registry.iterStart (r : Registry) : Iter := ⟨r.allTests⟩

/-- One step of the iterator: the next entry and the advanced cursor,
or `none` when exhausted. -/
def Iter.next : Iter → Option ((String × String × List Check) × Iter)
  | ⟨[]⟩ => none
  | ⟨e :: rest⟩ => some (e, ⟨rest⟩)

/-- Draining an iterator: the whole sequence it yields, step by step. -/
def Iter.drain : Iter → List (String × String × List Check)
  | ⟨[]⟩ => []
  | ⟨e :: rest⟩ => e :: Iter.drain ⟨rest⟩

/-- Modelled from the spec: the driver, spec section 6 — runs each
entry of the sequence in order inside its own failure-capturing scope
and collects one `TestResult` per entry. -/
def runEntries : List (String × String × List Check) →
    List (String × String × TestResult)
  | [] => []
  | e :: rest => (e.1, e.2.1, runBody e.2.2) :: runEntries rest

/-- Running every registered test of a registry. -/
def Registry.runAll (r : Registry) : List (String × String × TestResult) :=
  runEntries r.allTests

/- ### The example registrations of src/NativeTestExe/ExampleTests.cpp -/

/-- Name of the first group declared (line 14). -/
def MFVName : String := "MyFunnyValentine_testGroup"

/-- Name of the second group declared (line 18). -/
def AMBBName : String := "AquaManAndBarnacleBoy_testGroup"

/-- The registration sequence of the example file, in source order:
both groups, then the four tests. -/
def buildExample : Except RegError Registry :=
  defineGroup MFVName Registry.empty >>= fun r1 =>
  defineGroup AMBBName r1 >>= fun r2 =>
  defineTest MFVName "test_FailingTest1" test_FailingTest1_body r2 >>= fun r3 =>
  defineTest MFVName "test_PassingTest2" MFV_test_PassingTest2_body r3 >>= fun r4 =>
  defineTest AMBBName "test_PassingTest1" AMBB_test_PassingTest1_body r4 >>= fun r5 =>
  defineTest AMBBName "test_PassingTest2" AMBB_test_PassingTest2_body r5

/-- The registry the example registrations produce. -/
def exampleRegistry : Registry :=
  ⟨[⟨MFVName,
      [⟨"test_FailingTest1", test_FailingTest1_body⟩,
       ⟨"test_PassingTest2", MFV_test_PassingTest2_body⟩]⟩,
    ⟨AMBBName,
      [⟨"test_PassingTest1", AMBB_test_PassingTest1_body⟩,
       ⟨"test_PassingTest2", AMBB_test_PassingTest2_body⟩]⟩]⟩

/- ### A byte-level memory model for the C pointer comparison of line 40 -/

/-- A string literal's placement in memory: `m` holds the characters of
`s` byte by byte starting at address `a`, followed by a terminator byte,
and `s` itself contains no terminator character. -/
def storedCStr (m : Nat → Nat) (a : Nat) (s : List Char) : Prop :=
  (∀ i, i < s.length → m (a + i) = (s.getD i (Char.ofNat 0)).toNat) ∧
  m (a + s.length) = 0 ∧ ∀ c ∈ s, c ≠ Char.ofNat 0

instance (m : Nat → Nat) (a : Nat) (s : List Char) :
    Decidable (storedCStr m a s) := by
  unfold storedCStr; infer_instance

/-- The C expression `p != q` on two `const char*` values: it compares
the addresses, never the pointed-to characters. -/
def cPtrNe (p q : Nat) : Bool := p != q

/-- A concrete memory placing the literal `"yo"` at address 0 and the
literal `"mamma"` at address 3, each followed by a terminator. -/
def exMem : Nat → Nat := fun i =>
  (("yo".data ++ [Char.ofNat 0] ++ "mamma".data ++
    [Char.ofNat 0]).getD i (Char.ofNat 0)).toNat

/- ### Helper lemmas -/

theorem drain_mk (l : List (String × String × List Check)) :
    Iter.drain ⟨l⟩ = l := by
  induction l with
  | nil => simp [Iter.drain]
  | cons e rest ih => simp [Iter.drain, ih]

theorem runEntries_eq_map (l : List (String × String × List Check)) :
    runEntries l = l.map (fun e => (e.1, e.2.1, runBody e.2.2)) := by
  induction l with
  | nil => rfl
  | cons e rest ih => simp [runEntries, ih]

theorem runEntries_append (l₁ l₂ : List (String × String × List Check)) :
    runEntries (l₁ ++ l₂) = runEntries l₁ ++ runEntries l₂ := by
  induction l₁ with
  | nil => rfl
  | cons e rest ih => simp [runEntries, ih]

theorem runChecksE_skip (pre rest : List Check)
    (h : ∀ c ∈ pre, evalCheck c = none) :
    runChecksE (pre ++ rest) = runChecksE rest := by
  induction pre with
  | nil => rfl
  | cons c pre ih =>
      have hc : evalCheck c = none := h c (List.mem_cons_self c pre)
      simp only [List.cons_append, runChecksE, hc]
      exact ih fun c' hc' => h c' (List.mem_cons_of_mem c hc')

/-- Well-formedness of a registry: group names are unique in the
registry and test-case names are unique within each group. -/
def WF (r : Registry) : Prop :=
  r.groupNames.Nodup ∧ ∀ gr ∈ r.groups, (gr.cases.map TestCase.name).Nodup

/-- Registry states reachable from the empty registry by successful
registrations. -/
inductive Reachable : Registry → Prop
  | empty : Reachable Registry.empty
  | group {r r' : Registry} {n : String} :
      Reachable r → defineGroup n r = Except.ok r' → Reachable r'
  | test {r r' : Registry} {g n : String} {b : List Check} :
      Reachable r → defineTest g n b r = Except.ok r' → Reachable r'

theorem wf_defineGroup {r r' : Registry} {n : String} (hwf : WF r)
    (h : defineGroup n r = Except.ok r') : WF r' := by
  unfold defineGroup at h
  split at h
  · exact absurd h (by simp)
  · rename_i hnot
    obtain ⟨rfl⟩ : r' = ⟨r.groups ++ [⟨n, []⟩]⟩ := by
      cases h; rfl
    constructor
    · have hdis : (r.groups.map TestGroup.name).Disjoint [n] := by
        intro x hx hxn
        rw [List.mem_singleton] at hxn
        subst hxn
        exact hnot hx
      have hnames : (⟨r.groups ++ [⟨n, []⟩]⟩ : Registry).groupNames =
          r.groups.map TestGroup.name ++ [n] := by
        simp [Registry.groupNames]
      rw [hnames, List.nodup_append]
      exact ⟨hwf.1, List.nodup_singleton n, hdis⟩
    · intro gr hgr
      rcases List.mem_append.mp hgr with hmem | hmem
      · exact hwf.2 gr hmem
      · rw [List.mem_singleton] at hmem
        subst hmem
        simp

theorem wf_defineTest {r r' : Registry} {g n : String} {b : List Check}
    (hwf : WF r) (h : defineTest g n b r = Except.ok r') : WF r' := by
  unfold defineTest at h
  split at h
  · split at h
    · exact absurd h (by simp)
    · rename_i hno
      obtain ⟨rfl⟩ : r' = ⟨r.groups.map (fun gr =>
          if gr.name = g then ⟨gr.name, gr.cases ++ [⟨n, b⟩]⟩ else gr)⟩ := by
        cases h; rfl
      constructor
      · have hnames : (r.groups.map (fun gr =>
            if gr.name = g then
              (⟨gr.name, gr.cases ++ [⟨n, b⟩]⟩ : TestGroup)
            else gr)).map TestGroup.name = r.groups.map TestGroup.name := by
          rw [List.map_map]
          refine List.map_congr_left fun gr _ => ?_
          by_cases hg : gr.name = g <;> simp [hg]
        simpa [Registry.groupNames, hnames] using hwf.1
      · intro gr' hgr'
        rcases List.mem_map.mp hgr' with ⟨gr, hgr, hEq⟩
        by_cases hg : gr.name = g
        · subst hEq
          rw [if_pos hg]
          have hold : (gr.cases.map TestCase.name).Nodup := hwf.2 gr hgr
          have hnin : n ∉ gr.cases.map TestCase.name := by
            intro hn
            apply hno
            simp only [Registry.testNames, List.mem_flatMap]
            exact ⟨gr, by simp [List.mem_filter, hgr, hg], hn⟩
          have hdis : (gr.cases.map TestCase.name).Disjoint
              ([(⟨n, b⟩ : TestCase)].map TestCase.name) := by
            intro x hx hxn
            simp only [List.map_cons, List.map_nil,
              List.mem_singleton] at hxn
            subst hxn
            exact hnin hx
          rw [List.map_append, List.nodup_append]
          exact ⟨hold, by simp, hdis⟩
        · subst hEq
          rw [if_neg hg]
          exact hwf.2 gr hgr
  · exact absurd h (by simp)

theorem reachable_wf {r : Registry} (h : Reachable r) : WF r := by
  induction h with
  | empty => exact ⟨List.nodup_nil, by intro gr hgr; cases hgr⟩
  | group _ hok ih => exact wf_defineGroup ih hok
  | test _ hok ih => exact wf_defineTest ih hok

/- ### Claim theorems -/

/-- C1: Running all registered tests yields, for the first group, its
first test case Failed with an AssertionFailure whose expected value is
"harvey" and whose actual value is "steve", and its second test case
Passed. -/
theorem C1_firstGroup_results :
    exampleRegistry.runAll.take 2 =
      [(MFVName, "test_FailingTest1",
         TestResult.failed [strEqFail steveLit harveyLit 26]),
       (MFVName, "test_PassingTest2", TestResult.passed)] ∧
    (strEqFail steveLit harveyLit 26).expected = some "harvey" ∧
    (strEqFail steveLit harveyLit 26).actual = some "steve" :=
  ⟨by decide, by decide, by decide⟩

/-- C2: For every pair of strings whose byte sequences are identical —
even when the two strings live in different buffers, i.e. have
different addresses — assertStringEqual succeeds and records no
failure. -/
theorem C2_assertStringEqual_content (a b : CStr) (loc : Nat)
    (h : a.bytes = b.bytes) : evalCheck (Check.strEq a b loc) = none := by
  simp [evalCheck, h]

/-- Witness for C2 at the data of test_PassingTest2: the literal
`"steve"` and the freshly constructed buffer live at different
addresses yet the assertion succeeds. -/
theorem C2_assertStringEqual_content_witness :
    steveLit.addr ≠ steveBuf.addr ∧ steveLit.bytes = steveBuf.bytes ∧
    evalCheck (Check.strEq steveLit steveBuf 33) = none :=
  ⟨by decide, by decide,
    C2_assertStringEqual_content steveLit steveBuf 33 (by decide)⟩

/-- C3: For every pair of strings differing in at least one byte or in
length (their byte contents are distinct lists), assertStringEqual
records an AssertionFailure and the invoking test case's result is
Failed. -/
theorem C3_assertStringEqual_differs (a b : CStr) (loc : Nat)
    (pre rest : List Check) (hne : a.bytes ≠ b.bytes)
    (hpre : ∀ c ∈ pre, evalCheck c = none) :
    evalCheck (Check.strEq a b loc) = some (strEqFail a b loc) ∧
    runBody (pre ++ Check.strEq a b loc :: rest) =
      TestResult.failed [strEqFail a b loc] := by
  have hc : evalCheck (Check.strEq a b loc) = some (strEqFail a b loc) := by
    simp [evalCheck, hne]
  refine ⟨hc, ?_⟩
  unfold runBody
  rw [runChecksE_skip pre _ hpre]
  simp [runChecksE, hc]

/-- Witness for C3 at test_FailingTest1: "steve" and "harvey" differ,
the assertion records a failure and the case is Failed. -/
theorem C3_assertStringEqual_differs_witness :
    steveLit.bytes ≠ harveyLit.bytes ∧
    runBody test_FailingTest1_body =
      TestResult.failed [strEqFail steveLit harveyLit 26] := by
  have h := C3_assertStringEqual_differs steveLit harveyLit 26 [] []
    (by decide) (by simp)
  exact ⟨by decide, by simpa [test_FailingTest1_body] using h.2⟩

/-- C4: When an assertion fails, the failure is recorded and the test
body aborts fatally: whatever checks follow the failing one, the result
is exactly the one recorded failure, so every result contains at most
one AssertionFailure. -/
theorem C4_fatal_abort :
    (∀ body : List Check, (runBody body).numFailures ≤ 1) ∧
    (∀ (pre : List Check) (c : Check) (rest : List Check)
        (f : AssertionFailure),
        (∀ c' ∈ pre, evalCheck c' = none) → evalCheck c = some f →
        runBody (pre ++ c :: rest) = TestResult.failed [f]) := by
  constructor
  · intro body
    unfold runBody
    cases h : runChecksE body <;> simp [h, TestResult.numFailures]
  · intro pre c rest f hpre hc
    unfold runBody
    rw [runChecksE_skip pre _ hpre]
    simp [runChecksE, hc]

/-- Witness for C4: the failing string assertion of test_FailingTest1
followed by the two passing checks of the fourth test body still yields
exactly the one failure of the first check. -/
theorem C4_fatal_abort_witness :
    evalCheck (Check.strEq steveLit harveyLit 26) =
      some (strEqFail steveLit harveyLit 26) ∧
    runBody (Check.strEq steveLit harveyLit 26 ::
        AMBB_test_PassingTest2_body) =
      TestResult.failed [strEqFail steveLit harveyLit 26] := by
  have h := C4_fatal_abort.2 [] (Check.strEq steveLit harveyLit 26)
    AMBB_test_PassingTest2_body (strEqFail steveLit harveyLit 26)
    (by simp) (by decide)
  exact ⟨by decide, by simpa using h⟩

/-- C5: Running the second group's two test cases yields Passed for
both with zero AssertionFailures recorded overall. -/
theorem C5_secondGroup_results :
    exampleRegistry.runAll.drop 2 =
      [(AMBBName, "test_PassingTest1", TestResult.passed),
       (AMBBName, "test_PassingTest2", TestResult.passed)] ∧
    ((exampleRegistry.runAll.drop 2).map
      (fun e => TestResult.numFailures e.2.2)).sum = 0 :=
  ⟨by decide, by decide⟩

/-- C6: No AssertionFailure escapes the scope of the test case that
raised it: the driver runs every entry in its own failure-capturing
scope (entries before and after a given case are processed exactly the
same whatever that case's outcome), and the fatal-abort signal of a
body is caught at the case boundary and turned into a Failed result. -/
theorem C6_failure_contained :
    (∀ (pre post : List (String × String × List Check))
        (e : String × String × List Check),
        runEntries (pre ++ e :: post) =
          runEntries pre ++ (e.1, e.2.1, runBody e.2.2) ::
            runEntries post) ∧
    (∀ (body : List Check) (f : AssertionFailure),
        runChecksE body = Except.error f →
        runBody body = TestResult.failed [f]) := by
  constructor
  · intro pre post e
    rw [runEntries_append]
    rfl
  · intro body f h
    unfold runBody
    rw [h]

/-- Witness for C6: a body aborting with a boolean-check failure is
caught and reported as a Failed result. -/
theorem C6_failure_contained_witness :
    runChecksE [Check.boolTrue false 0] = Except.error (boolTrueFail 0) ∧
    runBody [Check.boolTrue false 0] =
      TestResult.failed [boolTrueFail 0] :=
  ⟨by rfl, C6_failure_contained.2 [Check.boolTrue false 0]
    (boolTrueFail 0) (by rfl)⟩

/-- C7: allTests() yields a finite sequence of (groupName, testName,
body) triples in registration order — for the example registrations,
exactly the four tests in source order — and draining a fresh iterator
always yields that same sequence, so iterating twice with no
intervening registration yields identical sequences. -/
theorem C7_allTests_deterministic :
    buildExample = Except.ok exampleRegistry ∧
    exampleRegistry.allTests =
      [(MFVName, "test_FailingTest1", test_FailingTest1_body),
       (MFVName, "test_PassingTest2", MFV_test_PassingTest2_body),
       (AMBBName, "test_PassingTest1", AMBB_test_PassingTest1_body),
       (AMBBName, "test_PassingTest2", AMBB_test_PassingTest2_body)] ∧
    (∀ r : Registry, r.iterStart.drain = r.allTests) ∧
    (∀ r : Registry, r.iterStart.drain = r.iterStart.drain) := by
  refine ⟨by rfl, by decide, fun r => ?_, fun r => rfl⟩
  unfold Registry.iterStart
  exact drain_mk r.allTests

/-- C8: In every reachable registry state, test-case names are unique
within their group and group names are unique in the registry;
registering a duplicate test name in the same group fails with
DuplicateTestError, while registering the same name in another existing
group succeeds. -/
theorem C8_unique_names :
    (∀ r : Registry, Reachable r → WF r) ∧
    (∀ (r : Registry) (g n : String) (b : List Check),
        g ∈ r.groupNames → n ∈ r.testNames g →
        defineTest g n b r = Except.error RegError.DuplicateTestError) ∧
    (∀ (r : Registry) (g n : String) (b : List Check),
        g ∈ r.groupNames → n ∉ r.testNames g →
        ∃ r', defineTest g n b r = Except.ok r') := by
  refine ⟨fun r h => reachable_wf h, ?_, ?_⟩
  · intro r g n b hg hn
    unfold defineTest
    rw [if_pos hg, if_pos hn]
  · intro r g n b hg hn
    refine ⟨⟨r.groups.map (fun gr =>
      if gr.name = g then ⟨gr.name, gr.cases ++ [⟨n, b⟩]⟩ else gr)⟩, ?_⟩
    unfold defineTest
    rw [if_pos hg, if_neg hn]

/-- Witness for C8: the example registry is reachable hence
well-formed; re-registering "test_FailingTest1" in its group is a
DuplicateTestError; registering "test_PassingTest1" (already present in
the second group) into the first group succeeds. -/
theorem C8_unique_names_witness :
    WF exampleRegistry ∧
    defineTest MFVName "test_FailingTest1" [] exampleRegistry =
      Except.error RegError.DuplicateTestError ∧
    ∃ r', defineTest MFVName "test_PassingTest1" [] exampleRegistry =
      Except.ok r' := by
  have h1 : Reachable (⟨[⟨MFVName, []⟩]⟩ : Registry) :=
    @Reachable.group _ _ MFVName Reachable.empty (by rfl)
  have h2 : Reachable (⟨[⟨MFVName, []⟩, ⟨AMBBName, []⟩]⟩ : Registry) :=
    @Reachable.group _ _ AMBBName h1 (by rfl)
  have h3 : Reachable (⟨[⟨MFVName,
      [⟨"test_FailingTest1", test_FailingTest1_body⟩]⟩,
      ⟨AMBBName, []⟩]⟩ : Registry) :=
    @Reachable.test _ _ MFVName "test_FailingTest1"
      test_FailingTest1_body h2 (by rfl)
  have h4 : Reachable (⟨[⟨MFVName,
      [⟨"test_FailingTest1", test_FailingTest1_body⟩,
       ⟨"test_PassingTest2", MFV_test_PassingTest2_body⟩]⟩,
      ⟨AMBBName, []⟩]⟩ : Registry) :=
    @Reachable.test _ _ MFVName "test_PassingTest2"
      MFV_test_PassingTest2_body h3 (by rfl)
  have h5 : Reachable (⟨[⟨MFVName,
      [⟨"test_FailingTest1", test_FailingTest1_body⟩,
       ⟨"test_PassingTest2", MFV_test_PassingTest2_body⟩]⟩,
      ⟨AMBBName,
       [⟨"test_PassingTest1", AMBB_test_PassingTest1_body⟩]⟩]⟩ :
        Registry) :=
    @Reachable.test _ _ AMBBName "test_PassingTest1"
      AMBB_test_PassingTest1_body h4 (by rfl)
  have h6 : Reachable exampleRegistry :=
    @Reachable.test _ _ AMBBName "test_PassingTest2"
      AMBB_test_PassingTest2_body h5 (by rfl)
  exact ⟨C8_unique_names.1 exampleRegistry h6,
    C8_unique_names.2.1 exampleRegistry MFVName "test_FailingTest1" []
      (by decide) (by decide),
    C8_unique_names.2.2 exampleRegistry MFVName "test_PassingTest1" []
      (by decide) (by decide)⟩

/-- C9: The C expression `"yo" != "mamma"` of line 40 compares the
addresses of the two literals, and it succeeds exactly when the
addresses are distinct; for any memory in which both literals are
stored, their different contents force distinct addresses, so the check
passes in every execution. -/
theorem C9_literal_address_compare (m : Nat → Nat) (ayo amam loc : Nat)
    (hyo : storedCStr m ayo "yo".data)
    (hmam : storedCStr m amam "mamma".data) :
    (evalCheck (Check.boolTrue (cPtrNe ayo amam) loc) = none ↔
      ayo ≠ amam) ∧ ayo ≠ amam := by
  have hneq : ayo ≠ amam := by
    intro heq
    have h1 := hyo.1 0 (by decide)
    have h2 := hmam.1 0 (by decide)
    rw [heq] at h1
    rw [h1] at h2
    exact absurd h2 (by decide)
  refine ⟨⟨fun _ => hneq, fun h => ?_⟩, hneq⟩
  have hb : cPtrNe ayo amam = true := by
    simp [cPtrNe, bne_iff_ne, h]
  simp [evalCheck, hb]

/-- Witness for C9: the concrete memory `exMem` stores "yo" at address
0 and "mamma" at address 3; the addresses differ and the check
passes. -/
theorem C9_literal_address_compare_witness :
    storedCStr exMem 0 "yo".data ∧ storedCStr exMem 3 "mamma".data ∧
    (0 : Nat) ≠ 3 ∧
    evalCheck (Check.boolTrue (cPtrNe 0 3) 40) = none := by
  have h := C9_literal_address_compare exMem 0 3 40 (by decide) (by decide)
  exact ⟨by decide, by decide, h.2, h.1.mpr h.2⟩

/-- C10: With no per-group fixture or shared state, each test case's
result is determined solely by its own body and the collection of
results is the same whatever order the cases are run in: running any
permutation of the registered tests yields a permutation of the
canonical results, and every test appears in the output paired with
exactly the result of its own body. -/
theorem C10_order_independence (l : List (String × String × List Check))
    (hperm : l.Perm exampleRegistry.allTests) :
    (runEntries l).Perm exampleRegistry.runAll ∧
    ∀ (g n : String) (b : List Check), (g, n, b) ∈ l →
      (g, n, runBody b) ∈ runEntries l := by
  constructor
  · unfold Registry.runAll
    rw [runEntries_eq_map l, runEntries_eq_map exampleRegistry.allTests]
    exact hperm.map _
  · intro g n b hmem
    rw [runEntries_eq_map]
    exact List.mem_map.mpr ⟨(g, n, b), hmem, rfl⟩

/-- Witness for C10: running the example tests in reversed order yields
a permutation of the canonical results, and the failing first test
still maps to exactly its own body's result. -/
theorem C10_order_independence_witness :
    (exampleRegistry.allTests.reverse).Perm exampleRegistry.allTests ∧
    (runEntries exampleRegistry.allTests.reverse).Perm
      exampleRegistry.runAll ∧
    (MFVName, "test_FailingTest1", runBody test_FailingTest1_body) ∈
      runEntries exampleRegistry.allTests.reverse := by
  have h := C10_order_independence exampleRegistry.allTests.reverse
    (List.reverse_perm _)
  exact ⟨List.reverse_perm _, h.1,
    h.2 MFVName "test_FailingTest1" test_FailingTest1_body (by decide)⟩

end CppUTestAdapter
